import Mathlib

/-!
Verification development for `web_api_scraper.py` (Grow A Garden stock scraper).

The Python module is shallowly embedded here:
  * `calculate_countdown` models the function of the same name (source lines
    28-63), including Python name resolution: the module imports only
    `datetime` from the `datetime` module (line 11), so the reference to
    `timedelta` on line 41 raises `NameError`.  `calculate_countdown_rest`
    models the remainder of the body (lines 41-63) as it would execute if the
    name `timedelta` were bound, including the `ValueError` that
    `datetime.replace(hour=24)` raises (line 55).
  * The DOM is modelled by `Node`; BeautifulSoup search primitives
    (`find`/`find_all`, class regex matching, `.text`, `.string`,
    `contents[0]`) are modelled over it.
  * `parse_item`, `section_entries`, `aggregate`, `process_section`,
    `build_stock_data`, `find_stock_grid`, `find_sections` and
    `process_document` model the extraction pipeline (source lines 132-227).
  * `attempt_body`, `scrape_stock_data` and `run_service` model the retry
    loop (lines 98-243) and the TTL-cache wrapper (lines 67-70, 226).

Times are modelled at whole-second granularity (the precision of the HTTP
`Date` header, which is the input actually parsed by the code; the code
immediately zeroes microseconds with `replace(second=0, microsecond=0)` on
the values it derives).  Strings are Lean `String`s; all character-level
operations (strip, upper, substring search, digit runs) are implemented
over `List Char` so that every definition evaluates inside the kernel.
-/

deriving instance DecidableEq for Except

namespace Scraper

/-- ASCII upper-casing of one character, as Python `str.upper` acts on ASCII. -/
def upperChar (c : Char) : Char :=
  if 97 ≤ c.toNat ∧ c.toNat ≤ 122 then Char.ofNat (c.toNat - 32) else c

/-- ASCII lower-casing of one character, as Python `str.lower` acts on ASCII. -/
def lowerChar (c : Char) : Char :=
  if 65 ≤ c.toNat ∧ c.toNat ≤ 90 then Char.ofNat (c.toNat + 32) else c

/-- Python `str.upper` (ASCII fragment). -/
def pyUpper (s : String) : String := String.mk (s.toList.map upperChar)

/-- Python `str.lower` (ASCII fragment). -/
def pyLower (s : String) : String := String.mk (s.toList.map lowerChar)

/-- Python whitespace characters relevant to `str.strip`:
space, tab, newline, carriage return, vertical tab, form feed. -/
def isPyWs (c : Char) : Bool :=
  c.toNat == 32 || c.toNat == 9 || c.toNat == 10 || c.toNat == 13 ||
    c.toNat == 11 || c.toNat == 12

/-- Python `str.strip()`: remove leading and trailing whitespace. -/
def pyStrip (s : String) : String :=
  String.mk (((s.toList.dropWhile isPyWs).reverse.dropWhile isPyWs).reverse)

/-- Substring test on character lists (Python `needle in hay`). -/
def hasSubList (needle : List Char) : List Char → Bool
  | [] => needle.isEmpty
  | c :: t => needle.isPrefixOf (c :: t) || hasSubList needle t

/-- Python `pat in hay` for strings. -/
def hasSubstr (hay pat : String) : Bool := hasSubList pat.toList hay.toList

/-- `re.search(r"grid.*grid-cols", s)` as a boolean: some occurrence of
`"grid"` is followed (at distance ≥ 4) by an occurrence of `"grid-cols"`. -/
def gridColsSearch : List Char → Bool
  | [] => false
  | c :: t =>
    (("grid".toList.isPrefixOf (c :: t)) &&
      hasSubList ("grid-cols".toList) ((c :: t).drop 4))
    || gridColsSearch t

/-- `re.search(pat + r"\d", s)` for a literal `pat`: an occurrence of `pat`
immediately followed by a digit.  Used for `space-y-\d+` and `bg-gray-\d+`
(the `+` on the digit run is irrelevant to a match test). -/
def patDigitSearch (pat : List Char) : List Char → Bool
  | [] => false
  | c :: t =>
    (pat.isPrefixOf (c :: t) &&
      (match (c :: t).drop pat.length with
       | d :: _ => d.isDigit
       | [] => false))
    || patDigitSearch pat t

/-- Matcher for `re.compile(r"grid.*grid-cols")` applied to one string. -/
def reGridCols (s : String) : Bool := gridColsSearch s.toList

/-- Matcher for `re.compile(r"space-y-\d+")` applied to one string. -/
def reSpaceY (s : String) : Bool := patDigitSearch ("space-y-".toList) s.toList

/-- Matcher for `re.compile(r"bg-gray-\d+")` applied to one string. -/
def reBgGray (s : String) : Bool := patDigitSearch ("bg-gray-".toList) s.toList

/-- Matcher for `re.compile(r"text-gray")` applied to one string. -/
def reTextGray (s : String) : Bool := hasSubList ("text-gray".toList) s.toList

/-- Matcher for `re.compile(r"GEAR STOCK|EGG STOCK|SEEDS STOCK", re.I)`. -/
def reStockHeading (s : String) : Bool :=
  hasSubstr (pyUpper s) "GEAR STOCK" || hasSubstr (pyUpper s) "EGG STOCK" ||
    hasSubstr (pyUpper s) "SEEDS STOCK"

/-- BeautifulSoup matching of a `class_` pattern against a multi-valued
`class` attribute: the pattern matches some individual class, or the
space-joined attribute value. -/
def classMatches (p : String → Bool) (classes : List String) : Bool :=
  classes.any p || p (String.intercalate " " classes)

/-- `re.search(r"\d+", s)`: the first maximal run of digits, if any. -/
def firstDigitRun : List Char → Option (List Char)
  | [] => none
  | c :: t => if c.isDigit then some (c :: t.takeWhile Char.isDigit)
              else firstDigitRun t

/-- Python `int` on a (non-empty) digit string. -/
def digitsToNat (l : List Char) : Nat :=
  l.foldl (fun a c => a * 10 + (c.toNat - 48)) 0

/-! ## Times and the countdown calculator (source lines 28-63) -/

/-- A `datetime` value at whole-second granularity.  `day` counts days from
an arbitrary epoch, so hour and day rollovers are represented exactly. -/
structure PyDateTime where
  day : Nat
  hour : Nat
  minute : Nat
  second : Nat
deriving DecidableEq

/-- Field ranges of a real `datetime` value. -/
def PyDateTime.Valid (t : PyDateTime) : Prop :=
  t.hour < 24 ∧ t.minute < 60 ∧ t.second < 60

/-- Total seconds since the epoch. -/
def PyDateTime.toSecs (t : PyDateTime) : Nat :=
  ((t.day * 24 + t.hour) * 60 + t.minute) * 60 + t.second

/-- Normalised `datetime` from a count of seconds (used for
`datetime + timedelta`, which normalises across hours and days). -/
def PyDateTime.ofSecs (s : Nat) : PyDateTime :=
  ⟨s / 86400, s % 86400 / 3600, s % 3600 / 60, s % 60⟩

/-- `dt + timedelta(minutes=m)`. -/
def addMinutes (t : PyDateTime) (m : Nat) : PyDateTime :=
  PyDateTime.ofSecs (t.toSecs + m * 60)

/-- `a - b` as a signed number of seconds (a `timedelta`). -/
def subSecs (a b : PyDateTime) : Int := (a.toSecs : Int) - (b.toSecs : Int)

/-- The `.seconds` attribute of a Python `timedelta` of `d` total seconds:
`timedelta` is normalised with floor division so that `0 ≤ seconds < 86400`
(a negative delta of `-s` seconds becomes `days=-1, seconds=86400-s`). -/
def tdSeconds (d : Int) : Nat := (Int.fmod d 86400).toNat

/-- Python `f"{n:02d}"` for a non-negative value. -/
def fmt2 (n : Nat) : String := if n < 10 then "0" ++ toString n else toString n

/-- Source line 48: `f"{m5:02d}m {s5:02d}s"` from a delta of `dist` seconds. -/
def ms_fmt (dist : Nat) : String := fmt2 (dist / 60) ++ "m " ++ fmt2 (dist % 60) ++ "s"

/-- Source line 61: `f"{h_egg:02d}h {m_egg:02d}m {s_egg:02d}s"` from a delta
of `dist` seconds. -/
def hms_fmt (dist : Nat) : String :=
  fmt2 (dist / 3600) ++ "h " ++ fmt2 (dist % 3600 / 60) ++ "m " ++ fmt2 (dist % 60) ++ "s"

/-- Python exceptions that the modelled code can raise. -/
inductive PyExc where
  | nameError (msg : String)
  | valueError (msg : String)
  | httpError (status : Nat)
deriving DecidableEq

/-- The names bound at module scope of `web_api_scraper.py` when
`calculate_countdown` runs: the imports of lines 1-12 and the module-level
definitions.  Note line 11 is `from datetime import datetime`, so `datetime`
is bound but `timedelta` is not. -/
def module_bindings : List String :=
  ["Flask", "jsonify", "Api", "Resource", "Namespace", "cloudscraper",
   "BeautifulSoup", "re", "logging", "time", "UserAgent", "TTLCache",
   "requests", "datetime", "dateutil", "logger", "app", "api", "ns",
   "cache", "calculate_countdown", "scrape_stock_data"]

/-- Source lines 37-63 of `calculate_countdown`, as they would execute from
line 41 onward if the name `timedelta` resolved: next 5-minute boundary for
gear/seeds, next half-hour boundary for egg.  The `else` branch of line 55
executes `now.replace(hour=now.hour + 1, minute=0)`, and `datetime.replace`
raises `ValueError` when the requested hour is outside `0..23`. -/
def calculate_countdown_rest (now : PyDateTime) : Except PyExc (String × String) :=
  let minutes := now.minute
  let seconds := now.second
  let next_5_min0 := { now with second := 0 }
  let next_5_min1 := addMinutes next_5_min0 ((5 - minutes % 5) % 5)
  let next_5_min := if minutes % 5 == 0 && seconds == 0
                    then addMinutes next_5_min1 5 else next_5_min1
  let dist_5 := tdSeconds (subSecs next_5_min now)
  let gear_seeds_countdown := ms_fmt dist_5
  let base := { now with second := 0 }
  if now.minute < 30 then
    let next_half_hour := { base with minute := 30 }
    Except.ok (gear_seeds_countdown, hms_fmt (tdSeconds (subSecs next_half_hour now)))
  else if now.hour + 1 ≥ 24 then
    Except.error (.valueError "hour must be in 0..23")
  else
    let next_half_hour := { base with hour := now.hour + 1, minute := 0 }
    Except.ok (gear_seeds_countdown, hms_fmt (tdSeconds (subSecs next_half_hour now)))

/-- `calculate_countdown(server_time)`, source lines 28-63.  The dateutil
parse of the `server_time` string is external input, modelled as
`parse_result` (`none` when parsing raised and the code fell back to
`datetime.now()`, modelled as `local_now`).  Line 41 evaluates the name
`timedelta`, which is not among `module_bindings`, so Python raises
`NameError` there; otherwise execution would continue as in
`calculate_countdown_rest`. -/
def calculate_countdown (parse_result : Option PyDateTime) (local_now : PyDateTime) :
    Except PyExc (String × String) :=
  let now := parse_result.getD local_now
  if module_bindings.contains "timedelta" then calculate_countdown_rest now
  else Except.error (.nameError "name timedelta is not defined")

/-! ## The DOM model and BeautifulSoup primitives -/

/-- A parsed HTML node: an element with a tag name, the (possibly empty)
list of classes from its `class` attribute, and its children in document
order; or a text node (a `NavigableString`). -/
inductive Node where
  | elem (tag : String) (classes : List String) (children : List Node)
  | text (s : String)

mutual
/-- All descendant nodes of a node in document (pre-)order, excluding the
node itself — the search space of BeautifulSoup `find`/`find_all`. -/
def descendants : Node → List Node
  | .text _ => []
  | .elem _ _ cs => descForest cs

/-- Pre-order listing of a forest, each root included before its subtree. -/
def descForest : List Node → List Node
  | [] => []
  | c :: cs => c :: (descendants c ++ descForest cs)
end

mutual
/-- BeautifulSoup `.text` / `get_text()`: concatenation of all descendant
text in document order. -/
def nodeText : Node → String
  | .text s => s
  | .elem _ _ cs => forestText cs

/-- `.text` of a forest. -/
def forestText : List Node → String
  | [] => ""
  | c :: cs => nodeText c ++ forestText cs
end

/-- BeautifulSoup `.string`: a text node is its own string; an element with
exactly one child delegates to that child; anything else has no string. -/
def nodeString : Node → Option String
  | .text s => some s
  | .elem _ _ [c] => nodeString c
  | .elem _ _ [] => none
  | .elem _ _ (_ :: _ :: _) => none

/-- `.contents` of a node (children of an element, empty for text). -/
def childrenOf : Node → List Node
  | .elem _ _ cs => cs
  | .text _ => []

/-- Whether a node is an element with the given tag whose `class` attribute
satisfies the matcher. -/
def isMatchingElem (tag : String) (p : List String → Bool) : Node → Bool
  | .elem t cls _ => t == tag && p cls
  | .text _ => false

/-- Class matcher accepting anything (a search by tag name only). -/
def anyClass : List String → Bool := fun _ => true

/-- `root.find_all(tag, class_=p)`: all matching descendants in document
order. -/
def find_all (root : Node) (tag : String) (p : List String → Bool) : List Node :=
  (descendants root).filter (isMatchingElem tag p)

/-- `root.find(tag, class_=p)`: the first matching descendant, if any. -/
def find_first (root : Node) (tag : String) (p : List String → Bool) : Option Node :=
  (find_all root tag p).head?

/-- `root.find_all(tag, recursive=False)`: matching direct children only. -/
def find_all_direct (root : Node) (tag : String) (p : List String → Bool) : List Node :=
  (childrenOf root).filter (isMatchingElem tag p)

/-- Source line 142: `div.find('h2', text=re.compile(r'GEAR STOCK|EGG STOCK|SEEDS STOCK', re.I))`:
the first descendant `h2` whose `.string` matches the heading pattern. -/
def find_h2_stock_heading (root : Node) : Option Node :=
  ((descendants root).filter (fun n =>
    isMatchingElem "h2" anyClass n &&
      (match nodeString n with
       | some s => reStockHeading s
       | none => false))).head?

/-! ## Stock data model and the item extractor (source lines 132-215) -/

/-- One extracted item: `{'name': ..., 'quantity': ...}`. -/
structure StockItem where
  name : String
  quantity : Nat
deriving DecidableEq

/-- One category of the result: `{'items': [...], 'updates_in': ...}`. -/
structure CategorySnapshot where
  items : List StockItem
  updates_in : String
deriving DecidableEq

/-- The `stock_data` dictionary with its three fixed keys. -/
structure StockData where
  gear_stock : CategorySnapshot
  egg_stock : CategorySnapshot
  seeds_stock : CategorySnapshot
deriving DecidableEq

/-- Source lines 180-205, one loop iteration: parse one `li` entry into a
name/quantity pair.  Each failure path (`continue` or an exception caught by
the `except` on line 203) yields `none`:
  * no descendant `span` (line 182);
  * `contents[0]` raising `IndexError` (empty contents, line 186);
  * `contents[0]` being a tag, whose `.strip()` raises `AttributeError`
    (line 186);
  * no nested `span` with a `text-gray` class (line 188);
  * no digit run in the quantity text (line 193). -/
def parse_item (item : Node) : Option (String × Nat) :=
  match find_first item "span" anyClass with
  | none => none
  | some name_span =>
    match childrenOf name_span with
    | [] => none
    | Node.elem _ _ _ :: _ => none
    | Node.text s :: _ =>
      let name := pyStrip s
      match find_first name_span "span" (classMatches reTextGray) with
      | none => none
      | some quantity_span =>
        let quantity_text := pyStrip (nodeText quantity_span)
        match firstDigitRun quantity_text.toList with
        | none => none
        | some run => some (name, digitsToNat run)

/-- Source lines 199-202: insert one parsed pair into the insertion-ordered
`item_dict` — an existing name gets its quantity summed in place, a new name
is appended. -/
def dict_insert (d : List StockItem) (n : String) (q : Nat) : List StockItem :=
  if d.any (fun it => it.name == n) then
    d.map (fun it => if it.name == n then { it with quantity := it.quantity + q } else it)
  else d ++ [⟨n, q⟩]

/-- Folding `dict_insert` over a list of parsed pairs, from a given dict. -/
def aggregateFrom (d : List StockItem) : List (String × Nat) → List StockItem
  | [] => d
  | p :: ps => aggregateFrom (dict_insert d p.1 p.2) ps

/-- Source lines 179-206: `item_dict` built from all parsed entries, read
back as `list(item_dict.values())` (insertion order). -/
def aggregate (ps : List (String × Nat)) : List StockItem := aggregateFrom [] ps

/-- Source line 175 + loop: the parsed name/quantity pairs of the `li`
entries (class `bg-gray-\d+`) of an items list, unparseable entries
skipped. -/
def section_entries (items_list : Node) : List (String × Nat) :=
  (find_all items_list "li" (classMatches reBgGray)).filterMap parse_item

/-- Source lines 132-136: the initial `stock_data` dictionary.  Every
category starts with empty items and the countdown computed for it. -/
def initial_stock_data (gear_seeds_countdown egg_countdown : String) : StockData :=
  ⟨⟨[], gear_seeds_countdown⟩, ⟨[], egg_countdown⟩, ⟨[], gear_seeds_countdown⟩⟩

/-- Source lines 163-215, one loop iteration over a candidate section:
skip when there is no `h2` or no `ul` with a `space-y-\d+` class; otherwise
aggregate the entries and store them under the category whose keyword the
upper-cased title contains (checked in the order GEAR, EGG, SEEDS);
unrecognised titles change nothing. -/
def process_section (gear_seeds_countdown egg_countdown : String)
    (stock_data : StockData) (sec : Node) : StockData :=
  match find_first sec "h2" anyClass with
  | none => stock_data
  | some title_tag =>
    let title := pyUpper (pyStrip (nodeText title_tag))
    match find_first sec "ul" (classMatches reSpaceY) with
    | none => stock_data
    | some items_list =>
      let stock_items := aggregate (section_entries items_list)
      if hasSubstr title "GEAR" then
        { stock_data with gear_stock := ⟨stock_items, gear_seeds_countdown⟩ }
      else if hasSubstr title "EGG" then
        { stock_data with egg_stock := ⟨stock_items, egg_countdown⟩ }
      else if hasSubstr title "SEEDS" then
        { stock_data with seeds_stock := ⟨stock_items, gear_seeds_countdown⟩ }
      else stock_data

/-- The section loop of lines 163-215 over all candidate sections. -/
def build_stock_data (sections : List Node) (gear_seeds_countdown egg_countdown : String) :
    StockData :=
  sections.foldl (process_section gear_seeds_countdown egg_countdown)
    (initial_stock_data gear_seeds_countdown egg_countdown)

/-- Source lines 138-144: primary grid search
`soup.find('div', class_=re.compile(r'grid.*grid-cols'))`, then the fallback
scanning every `div` for one containing a stock heading `h2`. -/
def find_stock_grid (soup : Node) : Option Node :=
  match find_first soup "div" (classMatches reGridCols) with
  | some stock_grid => some stock_grid
  | none => (find_all soup "div" anyClass).find? (fun d => (find_h2_stock_heading d).isSome)

/-- Source line 154: `stock_grid.find_all('div', recursive=False)` — the
candidate sections are the direct `div` children of the grid. -/
def find_sections (stock_grid : Node) : List Node :=
  find_all_direct stock_grid "div" anyClass

/-- The error dictionaries the function can return, identified by their
`error` field (see `ErrDict.errorField`). -/
inductive ErrDict where
  | invalidResponse (content_type : String)
  | blockedByCloudflare
  | gridNotFound
  | noSections
  | noStockData
  | failedAfterRetries (e : PyExc)
deriving DecidableEq

/-- The exact `error` field of each returned error dictionary. -/
def ErrDict.errorField : ErrDict → String
  | .invalidResponse _ => "Invalid response from server."
  | .blockedByCloudflare => "Blocked by Cloudflare verification."
  | .gridNotFound => "Stock grid not found on the page."
  | .noSections => "No stock sections found in grid."
  | .noStockData => "No stock data found."
  | .failedAfterRetries _ => "Failed to fetch or parse data after multiple attempts."

/-- What one call of `scrape_stock_data` returns: the `stock_data`
dictionary, or one of the error dictionaries. -/
inductive ScrapeResult where
  | success (d : StockData)
  | errorDict (e : ErrDict)
deriving DecidableEq

/-- Whether a result is a success snapshot. -/
def ScrapeResult.isSuccess : ScrapeResult → Bool
  | .success _ => true
  | .errorDict _ => false

/-- Source line 217: `not any(stock_data[stock]['items'] for stock in stock_data)`. -/
def all_items_empty (d : StockData) : Bool :=
  d.gear_stock.items.isEmpty && d.egg_stock.items.isEmpty && d.seeds_stock.items.isEmpty

/-- Source lines 132-227 after the countdown step: locate the grid (error
dict if absent), take its direct `div` children (error dict if none),
process every candidate section, and fail with the no-stock-data error dict
when all three categories ended up empty. -/
def process_document (soup : Node) (gear_seeds_countdown egg_countdown : String) :
    ScrapeResult :=
  match find_stock_grid soup with
  | none => .errorDict .gridNotFound
  | some stock_grid =>
    let stock_sections := find_sections stock_grid
    if stock_sections.isEmpty then .errorDict .noSections
    else
      let stock_data := build_stock_data stock_sections gear_seeds_countdown egg_countdown
      if all_items_empty stock_data then .errorDict .noStockData
      else .success stock_data

/-! ## One fetch attempt and the retry loop (source lines 94-243) -/

/-- One HTTP response as the attempt sees it: the status code, the outcome
of the external dateutil parse of the `Date` header (`none` when the parse
raised and line 35 fell back to `datetime.now()`, modelled by `local_now`),
the `Content-Type` header (already defaulted to the empty string by
`headers.get('Content-Type', '')`), the raw body text, and its parse tree. -/
structure Response where
  status : Nat
  date_parse : Option PyDateTime
  local_now : PyDateTime
  content_type : String
  body_text : String
  soup : Node

/-- Source line 124: the Cloudflare challenge markers. -/
def cloudflare_detected (body : String) : Bool :=
  hasSubstr body "cf-browser-verification" ||
    hasSubstr (pyLower body) "checking your browser"

/-- What one loop iteration of lines 99-227 does: either an exception
propagates to the `except` handler of line 229, or the function returns. -/
inductive AttemptOutcome where
  | raised (e : PyExc)
  | returned (r : ScrapeResult)
deriving DecidableEq

/-- Source lines 99-227, the body of one attempt:
`response.raise_for_status()` (line 103) raises for any status ≥ 400; then
line 110 calls `calculate_countdown`, whose exception propagates; only then
come the content-type check (lines 112-119), the Cloudflare check
(lines 124-130) and the document processing. -/
def attempt_body (resp : Response) : AttemptOutcome :=
  if 400 ≤ resp.status then .raised (.httpError resp.status)
  else
    match calculate_countdown resp.date_parse resp.local_now with
    | .error e => .raised e
    | .ok (gear_seeds_countdown, egg_countdown) =>
      if ¬ hasSubstr (pyLower resp.content_type) "text/html" then
        .returned (.errorDict (.invalidResponse resp.content_type))
      else if cloudflare_detected resp.body_text then
        .returned (.errorDict .blockedByCloudflare)
      else
        .returned (process_document resp.soup gear_seeds_countdown egg_countdown)

/-- Source lines 98 and 229-243: the `for attempt in range(max_retries)`
loop, one list element per attempt.  A raised exception is retried while
attempts remain; on the last attempt it becomes the final error dictionary
(lines 236-243).  The empty case is unreachable for the 3-attempt call. -/
def run_attempts : List Response → ScrapeResult
  | [] => .errorDict (.failedAfterRetries (.valueError "no attempt"))
  | r :: rest =>
    match attempt_body r with
    | .returned res => res
    | .raised e =>
      match rest with
      | [] => .errorDict (.failedAfterRetries e)
      | _ :: _ => run_attempts rest

/-- `scrape_stock_data()` on a cache miss, with `max_retries = 3` (line 95):
the responses the three attempts would observe are the three arguments. -/
def scrape_stock_data (r1 r2 r3 : Response) : ScrapeResult :=
  run_attempts [r1, r2, r3]

/-- Source line 226: only a success snapshot is ever stored in the cache. -/
def cache_update (res : ScrapeResult) (cache : Option StockData) : Option StockData :=
  match res with
  | .success d => some d
  | .errorDict _ => cache

/-- Source lines 67-70 and 226 across a sequence of calls: a call whose
cache lookup hits returns the cached snapshot (line 70), otherwise the
scrape runs and a success is stored.  (Key rotation can only remove
entries, so an empty cache over-approximates every reachable lookup miss.) -/
def run_service_from (cache : Option StockData) :
    List (Response × Response × Response) → List ScrapeResult
  | [] => []
  | (r1, r2, r3) :: rest =>
    match cache with
    | some d => .success d :: run_service_from (some d) rest
    | none =>
      let res := scrape_stock_data r1 r2 r3
      res :: run_service_from (cache_update res none) rest

/-- The service from process start: the cache begins empty. -/
def run_service (calls : List (Response × Response × Response)) : List ScrapeResult :=
  run_service_from none calls

/-! ## Concrete sample documents -/

/-- A quantity span `<span class="text-gray-400">x5</span>`. -/
def mkQuantitySpan (q : String) : Node := .elem "span" ["text-gray-400"] [.text q]

/-- A well-formed entry `<li class="bg-gray-800"><span>Name <span class="text-gray-400">x5</span></span></li>`. -/
def mkEntry (n q : String) : Node :=
  .elem "li" ["bg-gray-800"] [.elem "span" [] [.text n, mkQuantitySpan q]]

/-- A well-formed section: heading plus `ul` with the given entries. -/
def mkSection (title : String) (entries : List Node) : Node :=
  .elem "div" ["mb-4"]
    [.elem "h2" ["text-lg"] [.text title], .elem "ul" ["space-y-2"] entries]

/-- A grid element with the responsive grid classes holding the sections. -/
def mkGrid (sections : List Node) : Node :=
  .elem "div" ["grid", "grid-cols-1", "md:grid-cols-3"] sections

/-- A document whose grid holds the given sections, wrapped in html/body. -/
def mkDoc (sections : List Node) : Node :=
  .elem "[document]" [] [.elem "html" [] [.elem "body" [] [mkGrid sections]]]

/-! ## Specification-side helpers used to state the aggregation claims -/

/-- Names in order of first occurrence, skipping those already seen. -/
def firstOccAux (seen : List String) : List String → List String
  | [] => []
  | n :: ns =>
    if seen.any (fun m => m == n) then firstOccAux seen ns
    else n :: firstOccAux (n :: seen) ns

/-- The distinct names of a list in order of first occurrence. -/
def firstOccurrences (ns : List String) : List String := firstOccAux [] ns

/-- The quantity recorded for a name in an item list (0 when absent). -/
def lookupQ (d : List StockItem) (n : String) : Nat :=
  match d.find? (fun it => it.name == n) with
  | some it => it.quantity
  | none => 0

/-- The sum of the quantities carried by entries with a given name. -/
def qsum (n : String) (ps : List (String × Nat)) : Nat :=
  ((ps.filter (fun p => p.1 == n)).map (fun p => p.2)).sum

/-- Whether one iteration of the section loop writes the gear category:
the section has an `h2`, an items `ul`, and a title containing `GEAR`. -/
def writes_gear (sec : Node) : Bool :=
  match find_first sec "h2" anyClass with
  | none => false
  | some title_tag =>
    match find_first sec "ul" (classMatches reSpaceY) with
    | none => false
    | some _ => hasSubstr (pyUpper (pyStrip (nodeText title_tag))) "GEAR"

/-- Whether one iteration of the section loop writes the egg category
(the `elif` chain checks `GEAR` first). -/
def writes_egg (sec : Node) : Bool :=
  match find_first sec "h2" anyClass with
  | none => false
  | some title_tag =>
    match find_first sec "ul" (classMatches reSpaceY) with
    | none => false
    | some _ =>
      let title := pyUpper (pyStrip (nodeText title_tag))
      !hasSubstr title "GEAR" && hasSubstr title "EGG"

/-- Whether one iteration of the section loop writes the seeds category. -/
def writes_seeds (sec : Node) : Bool :=
  match find_first sec "h2" anyClass with
  | none => false
  | some title_tag =>
    match find_first sec "ul" (classMatches reSpaceY) with
    | none => false
    | some _ =>
      let title := pyUpper (pyStrip (nodeText title_tag))
      !hasSubstr title "GEAR" && !hasSubstr title "EGG" && hasSubstr title "SEEDS"

/-! ## Concrete fixtures used by counterexamples and witnesses -/

/-- Two egg entries with the same trimmed name `"Widget"`. -/
def eggDupUl : Node := .elem "ul" ["space-y-2"] [mkEntry "Widget " "x2", mkEntry "Widget " "x3"]

/-- An `EGG STOCK` section holding the two duplicate `Widget` entries. -/
def eggDupSection : Node :=
  .elem "div" ["mb-4"] [.elem "h2" ["text-lg"] [.text "EGG STOCK"], eggDupUl]

/-- Its heading element. -/
def eggDupTitle : Node := .elem "h2" ["text-lg"] [.text "EGG STOCK"]

/-- A `GEAR STOCK` section holding the same two duplicate `Widget` entries. -/
def gearDupSection : Node := mkSection "GEAR STOCK" [mkEntry "Widget " "x2", mkEntry "Widget " "x3"]

/-- An entry with no `span` at all: parsing skips it. -/
def noSpanEntry : Node := .elem "li" ["bg-gray-800"] [.text "placeholder"]

/-- An entry whose span has no nested quantity span: parsing skips it. -/
def noQuantityEntry : Node := .elem "li" ["bg-gray-800"] [.elem "span" [] [.text "Widget "]]

/-- An entry whose quantity text has no digits: parsing skips it. -/
def noDigitsEntry : Node := mkEntry "Widget " "xx"

/-- A candidate section with no heading at all. -/
def headlessSection : Node :=
  .elem "div" ["mb-4"] [.elem "ul" ["space-y-2"] [mkEntry "Ghost " "x4"]]

/-- A document whose three headed sections contain no parseable entry. -/
def allEmptyDoc : Node :=
  mkDoc [mkSection "GEAR STOCK" [noSpanEntry], mkSection "EGG STOCK" [noSpanEntry],
         mkSection "SEEDS STOCK" [noSpanEntry]]

/-- A grid (matching the primary class pattern) whose only child is a
`span`, with the real section `div` nested below it: the grid has no direct
`div` child, but it does have a descendant `div`. -/
def noDirectDivGrid : Node :=
  .elem "div" ["grid", "grid-cols-2"]
    [.elem "span" [] [mkSection "GEAR STOCK" [mkEntry "Wrench " "x2"]]]

/-- The document around `noDirectDivGrid`. -/
def noDirectDivDoc : Node :=
  .elem "[document]" [] [.elem "html" [] [.elem "body" [] [noDirectDivGrid]]]

/-- A well-formed 200 response whose body parses to a valid document. -/
def okHtmlResponse : Response :=
  ⟨200, some ⟨0, 12, 1, 30⟩, ⟨0, 12, 1, 30⟩, "text/html; charset=utf-8", "<html>",
    mkDoc [mkSection "GEAR STOCK" [mkEntry "Wrench " "x2"]]⟩

/-- A 200 response carrying JSON instead of HTML. -/
def jsonResponse : Response :=
  ⟨200, some ⟨0, 12, 1, 30⟩, ⟨0, 12, 1, 30⟩, "application/json", "[]",
    .elem "[document]" [] []⟩

/-! ## Helper lemmas -/

theorem calculate_countdown_name_error (p : Option PyDateTime) (l : PyDateTime) :
    calculate_countdown p l = .error (.nameError "name timedelta is not defined") := by
  have h : module_bindings.contains "timedelta" = false := by decide
  simp only [calculate_countdown, h, Bool.false_eq_true, if_false]

theorem attempt_body_raises (r : Response) : ∃ e, attempt_body r = .raised e := by
  unfold attempt_body
  by_cases h : 400 ≤ r.status
  · exact ⟨.httpError r.status, by simp [h]⟩
  · exact ⟨.nameError "name timedelta is not defined",
      by simp [h, calculate_countdown_name_error]⟩

theorem run_attempts_failed : ∀ rs : List Response, rs ≠ [] →
    ∃ e, run_attempts rs = .errorDict (.failedAfterRetries e)
  | [], h => absurd rfl h
  | r :: rest, _ => by
    obtain ⟨e, he⟩ := attempt_body_raises r
    rw [run_attempts, he]
    cases rest with
    | nil => exact ⟨e, rfl⟩
    | cons r2 rest2 => exact run_attempts_failed (r2 :: rest2) (by simp)

theorem scrape_not_success (r1 r2 r3 : Response) :
    (scrape_stock_data r1 r2 r3).isSuccess = false := by
  obtain ⟨e, he⟩ := run_attempts_failed [r1, r2, r3] (by simp)
  rw [scrape_stock_data, he]
  rfl

theorem run_service_from_none_fail :
    ∀ calls : List (Response × Response × Response),
      ∀ res ∈ run_service_from none calls, res.isSuccess = false
  | [], res, h => by simp [run_service_from] at h
  | (r1, r2, r3) :: rest, res, h => by
    obtain ⟨e, he⟩ := run_attempts_failed [r1, r2, r3] (by simp)
    have hs : scrape_stock_data r1 r2 r3 = .errorDict (.failedAfterRetries e) := he
    rw [run_service_from, hs] at h
    simp only [cache_update, List.mem_cons] at h
    rcases h with h | h
    · rw [h]; rfl
    · exact run_service_from_none_fail rest res h

theorem process_section_no_h2 (gs egg : String) (acc : StockData) (sec : Node)
    (h : find_first sec "h2" anyClass = none) :
    process_section gs egg acc sec = acc := by
  simp [process_section, h]

theorem gear_stock_unchanged (gs egg : String) (acc : StockData) (sec : Node)
    (h : writes_gear sec = false) :
    (process_section gs egg acc sec).gear_stock = acc.gear_stock := by
  cases hh : find_first sec "h2" anyClass with
  | none => simp [process_section, hh]
  | some t =>
    cases hu : find_first sec "ul" (classMatches reSpaceY) with
    | none => simp [process_section, hh, hu]
    | some u =>
      simp only [writes_gear, hh, hu] at h
      simp only [process_section, hh, hu]
      rw [if_neg (by simp [h])]
      split_ifs <;> rfl

theorem egg_stock_unchanged (gs egg : String) (acc : StockData) (sec : Node)
    (h : writes_egg sec = false) :
    (process_section gs egg acc sec).egg_stock = acc.egg_stock := by
  cases hh : find_first sec "h2" anyClass with
  | none => simp [process_section, hh]
  | some t =>
    cases hu : find_first sec "ul" (classMatches reSpaceY) with
    | none => simp [process_section, hh, hu]
    | some u =>
      simp only [writes_egg, hh, hu, Bool.and_eq_false_iff, Bool.not_eq_false] at h
      simp only [process_section, hh, hu]
      by_cases hG : hasSubstr (pyUpper (pyStrip (nodeText t))) "GEAR"
      · rw [if_pos hG]
      · have hE : hasSubstr (pyUpper (pyStrip (nodeText t))) "EGG" = false := by
          rcases h with h | h
          · exact absurd h (by simp [hG])
          · exact h
        rw [if_neg (by simp [hG]), if_neg (by simp [hE])]
        split_ifs <;> rfl

theorem seeds_stock_unchanged (gs egg : String) (acc : StockData) (sec : Node)
    (h : writes_seeds sec = false) :
    (process_section gs egg acc sec).seeds_stock = acc.seeds_stock := by
  cases hh : find_first sec "h2" anyClass with
  | none => simp [process_section, hh]
  | some t =>
    cases hu : find_first sec "ul" (classMatches reSpaceY) with
    | none => simp [process_section, hh, hu]
    | some u =>
      simp only [writes_seeds, hh, hu, Bool.and_eq_false_iff, Bool.not_eq_false] at h
      simp only [process_section, hh, hu]
      by_cases hG : hasSubstr (pyUpper (pyStrip (nodeText t))) "GEAR"
      · rw [if_pos hG]
      · by_cases hE : hasSubstr (pyUpper (pyStrip (nodeText t))) "EGG"
        · rw [if_neg (by simp [hG]), if_pos hE]
        · have hS : hasSubstr (pyUpper (pyStrip (nodeText t))) "SEEDS" = false := by
            rcases h with (h | h) | h
            · exact absurd h (by simp [hG])
            · exact absurd h (by simp [hE])
            · exact h
          rw [if_neg (by simp [hG]), if_neg (by simp [hE]), if_neg (by simp [hS])]

theorem build_gear_default : ∀ (secs : List Node) (gs egg : String) (acc : StockData),
    (∀ s ∈ secs, writes_gear s = false) →
    (secs.foldl (process_section gs egg) acc).gear_stock = acc.gear_stock
  | [], _, _, _, _ => rfl
  | s :: secs, gs, egg, acc, h => by
    rw [List.foldl_cons,
      build_gear_default secs gs egg _ (fun x hx => h x (List.mem_cons_of_mem _ hx)),
      gear_stock_unchanged gs egg acc s (h s (List.mem_cons_self _ _))]

theorem build_egg_default : ∀ (secs : List Node) (gs egg : String) (acc : StockData),
    (∀ s ∈ secs, writes_egg s = false) →
    (secs.foldl (process_section gs egg) acc).egg_stock = acc.egg_stock
  | [], _, _, _, _ => rfl
  | s :: secs, gs, egg, acc, h => by
    rw [List.foldl_cons,
      build_egg_default secs gs egg _ (fun x hx => h x (List.mem_cons_of_mem _ hx)),
      egg_stock_unchanged gs egg acc s (h s (List.mem_cons_self _ _))]

theorem build_seeds_default : ∀ (secs : List Node) (gs egg : String) (acc : StockData),
    (∀ s ∈ secs, writes_seeds s = false) →
    (secs.foldl (process_section gs egg) acc).seeds_stock = acc.seeds_stock
  | [], _, _, _, _ => rfl
  | s :: secs, gs, egg, acc, h => by
    rw [List.foldl_cons,
      build_seeds_default secs gs egg _ (fun x hx => h x (List.mem_cons_of_mem _ hx)),
      seeds_stock_unchanged gs egg acc s (h s (List.mem_cons_self _ _))]

theorem process_document_success (soup : Node) (gs egg : String) (d : StockData) (grid : Node)
    (hg : find_stock_grid soup = some grid)
    (hd : process_document soup gs egg = .success d) :
    d = build_stock_data (find_sections grid) gs egg := by
  rw [process_document, hg] at hd
  by_cases he : (find_sections grid).isEmpty
  · simp [he] at hd
  · simp only [he, Bool.false_eq_true, if_false] at hd
    by_cases ha : all_items_empty (build_stock_data (find_sections grid) gs egg)
    · simp [ha] at hd
    · simp only [ha, Bool.false_eq_true, if_false, ScrapeResult.success.injEq] at hd
      exact hd.symm

theorem dict_insert_names (d : List StockItem) (n : String) (q : Nat) :
    (dict_insert d n q).map StockItem.name =
      if d.any (fun it => it.name == n) then d.map StockItem.name
      else d.map StockItem.name ++ [n] := by
  unfold dict_insert
  by_cases h : d.any (fun it => it.name == n)
  · rw [if_pos h, if_pos h, List.map_map]
    refine List.map_congr_left fun it _ => ?_
    by_cases hn : it.name == n <;> simp [hn, Function.comp]
  · rw [if_neg h, if_neg h]
    simp

theorem lookupQ_cons (a : StockItem) (d : List StockItem) (n : String) :
    lookupQ (a :: d) n = if a.name == n then a.quantity else lookupQ d n := by
  unfold lookupQ
  by_cases h : a.name == n
  · simp [List.find?, h]
  · simp [List.find?, h]

theorem lookupQ_eq_zero (d : List StockItem) (n : String)
    (h : d.any (fun it => it.name == n) = false) : lookupQ d n = 0 := by
  induction d with
  | nil => rfl
  | cons a d ih =>
    simp only [List.any_cons, Bool.or_eq_false_iff] at h
    rw [lookupQ_cons, if_neg (by simp [h.1]), ih h.2]

theorem lookupQ_append_single (d : List StockItem) (x : StockItem) (n : String) :
    lookupQ (d ++ [x]) n =
      if d.any (fun it => it.name == n) then lookupQ d n
      else if x.name == n then x.quantity else 0 := by
  induction d with
  | nil =>
    rw [List.nil_append, lookupQ_cons]
    simp [lookupQ]
  | cons a d ih =>
    by_cases h : a.name == n
    · simp [lookupQ_cons, h]
    · have hb : (a.name == n) = false := by simpa using h
      simp [lookupQ_cons, hb, ih]

theorem lookupQ_map_bump (d : List StockItem) (m : String) (q : Nat) (n : String) :
    lookupQ (d.map fun it =>
        if it.name == m then { it with quantity := it.quantity + q } else it) n =
      if n == m && d.any (fun it => it.name == n) then lookupQ d n + q
      else lookupQ d n := by
  induction d with
  | nil => simp [lookupQ]
  | cons a d ih =>
    by_cases hnm : n = m
    · subst hnm
      by_cases han : a.name = n
      · subst han
        simp [lookupQ_cons]
      · simpa [lookupQ_cons, han] using ih
    · by_cases han : a.name = n
      · subst han
        have hnm2 : ¬ a.name = m := hnm
        simp [lookupQ_cons, hnm2]
      · by_cases ham : a.name = m
        · subst ham
          simpa [lookupQ_cons, han, hnm] using ih
        · simpa [lookupQ_cons, han, hnm, ham] using ih

theorem lookupQ_dict_insert (d : List StockItem) (m : String) (q : Nat) (n : String) :
    lookupQ (dict_insert d m q) n = lookupQ d n + (if n == m then q else 0) := by
  unfold dict_insert
  by_cases hm : d.any (fun it => it.name == m)
  · rw [if_pos hm, lookupQ_map_bump]
    by_cases hnm : n = m
    · subst hnm
      simp [hm]
    · simp [hnm, show (n == m) = false by simpa using hnm]
  · rw [if_neg hm, lookupQ_append_single]
    by_cases hn : d.any (fun it => it.name == n)
    · have hnm : ¬ n = m := by
        intro hc
        subst hc
        exact hm hn
      rw [if_pos hn, if_neg (by simpa using hnm)]
      simp
    · have hz : lookupQ d n = 0 := lookupQ_eq_zero d n (by simpa using hn)
      rw [if_neg hn, hz]
      by_cases hnm : n = m
      · subst hnm
        simp
      · simp [show (m == n) = false by simp [Ne.symm hnm],
          show (n == m) = false by simpa using hnm]

theorem lookupQ_aggregateFrom : ∀ (ps : List (String × Nat)) (d : List StockItem) (n : String),
    lookupQ (aggregateFrom d ps) n = lookupQ d n + qsum n ps
  | [], d, n => by simp [aggregateFrom, qsum]
  | (m, q) :: ps, d, n => by
    rw [aggregateFrom, lookupQ_aggregateFrom ps (dict_insert d m q) n, lookupQ_dict_insert]
    unfold qsum
    by_cases hmn : m = n
    · subst hmn
      simp [List.filter_cons, qsum]
      omega
    · simp [List.filter_cons, show (m == n) = false by simpa using hmn,
        show (n == m) = false by simp [Ne.symm hmn], qsum]

theorem firstOccAux_congr : ∀ (ns s1 s2 : List String),
    (∀ n, s1.any (fun m => m == n) = s2.any (fun m => m == n)) →
    firstOccAux s1 ns = firstOccAux s2 ns
  | [], _, _, _ => rfl
  | n :: ns, s1, s2, h => by
    rw [firstOccAux, firstOccAux, h n]
    by_cases hc : s2.any (fun m => m == n)
    · rw [if_pos hc, if_pos hc]
      exact firstOccAux_congr ns s1 s2 h
    · rw [if_neg hc, if_neg hc]
      rw [firstOccAux_congr ns (n :: s1) (n :: s2) (fun x => by
        simp only [List.any_cons, h x])]

theorem any_name_map (d : List StockItem) (m : String) :
    (d.map StockItem.name).any (fun x => x == m) = d.any (fun it => it.name == m) := by
  induction d with
  | nil => rfl
  | cons a d ih => simp [List.any_cons, ih]

theorem aggregateFrom_names : ∀ (ps : List (String × Nat)) (d : List StockItem),
    (aggregateFrom d ps).map StockItem.name =
      d.map StockItem.name ++ firstOccAux (d.map StockItem.name) (ps.map Prod.fst)
  | [], d => by simp [aggregateFrom, firstOccAux]
  | (m, q) :: ps, d => by
    rw [aggregateFrom, aggregateFrom_names ps (dict_insert d m q), dict_insert_names]
    by_cases h : d.any (fun it => it.name == m)
    · rw [if_pos h, List.map_cons, firstOccAux, if_pos (by rw [any_name_map]; exact h)]
    · have hf : d.any (fun it => it.name == m) = false := by simpa using h
      rw [if_neg h, List.map_cons, firstOccAux, if_neg (by rw [any_name_map, hf]; simp)]
      rw [firstOccAux_congr (ps.map Prod.fst) ((d.map StockItem.name) ++ [m])
        (m :: d.map StockItem.name) (fun x => by
          simp [List.any_append, List.any_cons, Bool.or_comm])]
      simp

theorem firstOccAux_mem : ∀ (ns seen : List String) (x : String),
    x ∈ firstOccAux seen ns → seen.any (fun m => m == x) = false
  | [], _, _, h => absurd h (by simp [firstOccAux])
  | n :: ns, seen, x, h => by
    rw [firstOccAux] at h
    by_cases hc : seen.any (fun m => m == n)
    · rw [if_pos hc] at h
      exact firstOccAux_mem ns seen x h
    · rw [if_neg hc] at h
      rcases List.mem_cons.mp h with h | h
      · subst h
        exact Bool.eq_false_iff.mpr hc
      · have := firstOccAux_mem ns (n :: seen) x h
        simp only [List.any_cons, Bool.or_eq_false_iff] at this
        exact this.2

theorem firstOccAux_nodup : ∀ (ns seen : List String), (firstOccAux seen ns).Nodup
  | [], _ => List.nodup_nil
  | n :: ns, seen => by
    rw [firstOccAux]
    by_cases hc : seen.any (fun m => m == n)
    · rw [if_pos hc]
      exact firstOccAux_nodup ns seen
    · rw [if_neg hc]
      refine List.nodup_cons.mpr ⟨fun hmem => ?_, firstOccAux_nodup ns (n :: seen)⟩
      have := firstOccAux_mem ns (n :: seen) n hmem
      simp at this

theorem tdSeconds_small (d : Int) (h0 : 0 ≤ d) (h1 : d < 86400) : tdSeconds d = d.toNat := by
  unfold tdSeconds
  rw [Int.fmod_eq_emod _ (by norm_num), Int.emod_eq_of_lt h0 h1]

/-! ## The claims -/

/-- Claim C1, counterexample: the code aggregates the `egg` category exactly
like the others (line 178: "Aggregate all items (including eggs)").  A
section mapped to egg holding two successfully parsed entries, both with the
trimmed name `"Widget"` (quantities 2 and 3), yields a single StockItem
`{name: "Widget", quantity: 5}` in the egg CategorySnapshot — not two
separate StockItems as the claim states. -/
theorem C1_egg_not_kept_separate_counterexample :
    section_entries eggDupUl = [("Widget", 2), ("Widget", 3)] ∧
    process_document (mkDoc [eggDupSection]) "01m 00s" "00h 01m 00s" =
      .success ⟨⟨[], "01m 00s"⟩, ⟨[⟨"Widget", 5⟩], "00h 01m 00s"⟩, ⟨[], "01m 00s"⟩⟩ :=
  ⟨by decide, by decide⟩

/-- Claim C1 as amended: for a section mapped to the egg category the items
are produced by the same `aggregate` used for gear and seeds — same-name
entries are merged with their digit-parsed quantities summed (no per-entry
preservation for egg). -/
theorem C1_egg_aggregates_like_gear_seeds (gs egg : String) (acc : StockData)
    (sec title_tag items_list : Node) (n : String)
    (hh : find_first sec "h2" anyClass = some title_tag)
    (hu : find_first sec "ul" (classMatches reSpaceY) = some items_list)
    (hG : hasSubstr (pyUpper (pyStrip (nodeText title_tag))) "GEAR" = false)
    (hE : hasSubstr (pyUpper (pyStrip (nodeText title_tag))) "EGG" = true) :
    (process_section gs egg acc sec).egg_stock =
      ⟨aggregate (section_entries items_list), egg⟩ ∧
    lookupQ (aggregate (section_entries items_list)) n = qsum n (section_entries items_list) := by
  constructor
  · simp only [process_section, hh, hu]
    rw [if_neg (by simp [hG]), if_pos (by simp [hE])]
  · have h2 := lookupQ_aggregateFrom (section_entries items_list) [] n
    rw [show lookupQ [] n = 0 from rfl, Nat.zero_add] at h2
    exact h2

/-- Witness for the amended C1 at the concrete duplicate-`Widget` egg
section. -/
theorem C1_egg_aggregates_witness :
    (process_section "01m 00s" "00h 01m 00s" (initial_stock_data "01m 00s" "00h 01m 00s")
        eggDupSection).egg_stock =
      ⟨aggregate (section_entries eggDupUl), "00h 01m 00s"⟩ ∧
    lookupQ (aggregate (section_entries eggDupUl)) "Widget" =
      qsum "Widget" (section_entries eggDupUl) :=
  C1_egg_aggregates_like_gear_seeds "01m 00s" "00h 01m 00s"
    (initial_stock_data "01m 00s" "00h 01m 00s") eggDupSection eggDupTitle eggDupUl "Widget"
    rfl rfl (by decide) (by decide)

/-- Claim C2: `calculate_countdown` references `timedelta`, which the module
never imports, so it raises `NameError` for every input; consequently every
attempt with a non-error HTTP status fails at the countdown step (line 110),
and `scrape_stock_data` never returns a success snapshot — including across
any sequence of calls sharing the (initially empty) cache. -/
theorem C2_countdown_name_error_never_success :
    (∀ (p : Option PyDateTime) (l : PyDateTime),
        calculate_countdown p l = .error (.nameError "name timedelta is not defined")) ∧
    (∀ resp : Response, resp.status < 400 →
        attempt_body resp = .raised (.nameError "name timedelta is not defined")) ∧
    (∀ r1 r2 r3 : Response, (scrape_stock_data r1 r2 r3).isSuccess = false) ∧
    (∀ calls, ∀ res ∈ run_service calls, res.isSuccess = false) := by
  refine ⟨calculate_countdown_name_error, ?_, scrape_not_success, ?_⟩
  · intro resp h
    unfold attempt_body
    rw [if_neg (by omega), calculate_countdown_name_error]
  · intro calls res h
    exact run_service_from_none_fail calls res h

/-- Witness for C2 at a concrete well-formed 200 response. -/
theorem C2_witness :
    attempt_body okHtmlResponse = .raised (.nameError "name timedelta is not defined") :=
  C2_countdown_name_error_never_success.2.1 okHtmlResponse (by decide)

/-- Claim C3, counterexample: on a successful run in which the gear category
is never matched, its snapshot keeps the countdown string computed for it
(lines 132-136), not `"Unknown"`: here the default gear snapshot carries
`"05m 00s"`. -/
theorem C3_default_not_unknown_counterexample :
    process_document (mkDoc [eggDupSection]) "05m 00s" "00h 25m 00s" =
      .success ⟨⟨[], "05m 00s"⟩, ⟨[⟨"Widget", 5⟩], "00h 25m 00s"⟩, ⟨[], "05m 00s"⟩⟩ ∧
    ("05m 00s" : String) ≠ "Unknown" :=
  ⟨by decide, by decide⟩

/-- Claim C3 as amended: a category never matched by any located section
keeps its default from lines 132-136 — empty items together with the
countdown string computed for that category (the 5-minute one for gear and
seeds, the 30-minute one for egg); `"Unknown"` appears only in the API layer
as the fallback for a missing key. -/
theorem C3_unmatched_category_default (soup : Node) (gs egg : String) (grid : Node)
    (d : StockData)
    (hg : find_stock_grid soup = some grid)
    (hd : process_document soup gs egg = .success d) :
    ((∀ s ∈ find_sections grid, writes_gear s = false) → d.gear_stock = ⟨[], gs⟩) ∧
    ((∀ s ∈ find_sections grid, writes_egg s = false) → d.egg_stock = ⟨[], egg⟩) ∧
    ((∀ s ∈ find_sections grid, writes_seeds s = false) → d.seeds_stock = ⟨[], gs⟩) := by
  have hdb := process_document_success soup gs egg d grid hg hd
  subst hdb
  refine ⟨fun h => ?_, fun h => ?_, fun h => ?_⟩
  · rw [build_stock_data, build_gear_default (find_sections grid) gs egg _ h]
    rfl
  · rw [build_stock_data, build_egg_default (find_sections grid) gs egg _ h]
    rfl
  · rw [build_stock_data, build_seeds_default (find_sections grid) gs egg _ h]
    rfl

/-- Witness for the amended C3: the gear category is never matched in the
egg-only document, so its snapshot is the default with the gear/seeds
countdown. -/
theorem C3_unmatched_category_witness :
    (⟨⟨[], "05m 00s"⟩, ⟨[⟨"Widget", 5⟩], "00h 25m 00s"⟩, ⟨[], "05m 00s"⟩⟩ : StockData).gear_stock
      = ⟨[], "05m 00s"⟩ :=
  (C3_unmatched_category_default (mkDoc [eggDupSection]) "05m 00s" "00h 25m 00s"
    (mkGrid [eggDupSection])
    ⟨⟨[], "05m 00s"⟩, ⟨[⟨"Widget", 5⟩], "00h 25m 00s"⟩, ⟨[], "05m 00s"⟩⟩ rfl (by decide)).1
    (by decide)

/-- Claim C4: the countdown computation does not in fact survive hour/day
rollovers.  At reference time 23:58:30 the function as written raises
`NameError` (as it does on every input, `timedelta` being unimported), and
even the remainder of the body, executed as if `timedelta` were bound,
raises `ValueError` from `now.replace(hour=now.hour + 1, minute=0)` because
hour 24 is out of range; the gear 5-minute boundary itself (at 12:58:30)
does land on :00 of the next hour as the spec expects. -/
theorem C4_rollover_failure :
    calculate_countdown (some ⟨0, 23, 58, 30⟩) ⟨0, 23, 58, 30⟩ =
      .error (.nameError "name timedelta is not defined") ∧
    calculate_countdown_rest ⟨0, 23, 58, 30⟩ =
      .error (.valueError "hour must be in 0..23") ∧
    calculate_countdown_rest ⟨0, 12, 58, 30⟩ = .ok ("01m 30s", "00h 01m 30s") :=
  ⟨by decide, by decide, by decide⟩

/-- Claim C5, counterexample: at 12:01:30 the egg restock is 1710 seconds
away — under one hour — yet the egg countdown string is rendered with an
hour field, `"00h 28m 30s"`, not `"28m 30s"` as the claimed format rule
would require. -/
theorem C5_format_counterexample :
    calculate_countdown_rest ⟨0, 12, 1, 30⟩ = .ok ("03m 30s", "00h 28m 30s") ∧
    tdSeconds (subSecs ⟨0, 12, 30, 0⟩ ⟨0, 12, 1, 30⟩) = 1710 ∧
    (1710 < 3600) ∧ ("00h 28m 30s" : String) ≠ "28m 30s" :=
  ⟨by decide, by decide, by decide, by decide⟩

/-- Claim C5 as amended: whenever the fixed-period computation succeeds, the
gear/seeds string always has the `"MMm SSs"` shape of line 48, while the egg
string always has the `"HHh MMm SSs"` shape of line 61 — with its hour field
always `"00"`, the egg delta never reaching one hour (it is at most 1800
seconds). -/
theorem C5_egg_always_carries_hour_field (now : PyDateTime) (hv : now.Valid)
    (hok : now.minute < 30 ∨ now.hour < 23) :
    ∃ d5 degg, calculate_countdown_rest now = .ok (ms_fmt d5, hms_fmt degg) ∧
      degg ≤ 1800 ∧ fmt2 (degg / 3600) = "00" := by
  obtain ⟨hh, hm, hs⟩ := hv
  by_cases h30 : now.minute < 30
  · simp only [calculate_countdown_rest]
    rw [if_pos h30]
    refine ⟨_, _, rfl, ?_, ?_⟩
    all_goals {
      have harith : subSecs { { now with second := 0 } with minute := 30 } now =
          ((1800 - (now.minute * 60 + now.second) : Nat) : Int) := by
        simp only [subSecs, PyDateTime.toSecs]
        push_cast
        omega
      rw [harith, tdSeconds_small _ (by positivity) (by exact_mod_cast (by omega :
        (1800 - (now.minute * 60 + now.second)) < 86400)), Int.toNat_natCast]
      first
      | omega
      | (rw [Nat.div_eq_of_lt (by omega)]; rfl)
    }
  · have h23 : now.hour < 23 := hok.resolve_left h30
    simp only [calculate_countdown_rest]
    rw [if_neg h30, if_neg (by omega)]
    refine ⟨_, _, rfl, ?_, ?_⟩
    all_goals {
      have harith : subSecs { { now with second := 0 } with hour := now.hour + 1, minute := 0 }
          now = ((3600 - (now.minute * 60 + now.second) : Nat) : Int) := by
        simp only [subSecs, PyDateTime.toSecs]
        push_cast
        omega
      rw [harith, tdSeconds_small _ (by positivity) (by exact_mod_cast (by omega :
        (3600 - (now.minute * 60 + now.second)) < 86400)), Int.toNat_natCast]
      first
      | omega
      | (rw [Nat.div_eq_of_lt (by omega)]; rfl)
    }

/-- Witness for the amended C5 at a concrete reference time. -/
theorem C5_format_witness :
    ∃ d5 degg, calculate_countdown_rest ⟨0, 12, 1, 30⟩ = .ok (ms_fmt d5, hms_fmt degg) ∧
      degg ≤ 1800 ∧ fmt2 (degg / 3600) = "00" :=
  C5_egg_always_carries_hour_field ⟨0, 12, 1, 30⟩ (by constructor <;> simp) (by left; simp)

/-- Claim C6: an attempt whose response `Content-Type` is not HTML still
counts as a failed attempt and is retried like any other failure — the
countdown `NameError` of line 110 is raised before the content-type check of
line 112 is ever reached — and the function returns its final error
dictionary only once the three attempts are exhausted; in particular the
immediate non-HTML error return of lines 113-119 is unreachable. -/
theorem C6_non_html_attempt_retried (r1 r2 r3 : Response) (ct : String)
    (_h : hasSubstr (pyLower r1.content_type) "text/html" = false) :
    (∃ e, attempt_body r1 = .raised e) ∧
    scrape_stock_data r1 r2 r3 = run_attempts [r2, r3] ∧
    (∃ e, scrape_stock_data r1 r2 r3 = .errorDict (.failedAfterRetries e)) ∧
    scrape_stock_data r1 r2 r3 ≠ .errorDict (.invalidResponse ct) := by
  obtain ⟨e1, he1⟩ := attempt_body_raises r1
  obtain ⟨e3, he3⟩ := run_attempts_failed [r1, r2, r3] (by simp)
  refine ⟨⟨e1, he1⟩, ?_, ⟨e3, he3⟩, ?_⟩
  · show run_attempts [r1, r2, r3] = run_attempts [r2, r3]
    rw [run_attempts, he1]
  · show run_attempts [r1, r2, r3] ≠ .errorDict (.invalidResponse ct)
    rw [he3]
    simp

/-- Witness for C6 at a concrete JSON (non-HTML) first response. -/
theorem C6_non_html_witness :
    (∃ e, attempt_body jsonResponse = .raised e) ∧
    scrape_stock_data jsonResponse okHtmlResponse okHtmlResponse =
      run_attempts [okHtmlResponse, okHtmlResponse] ∧
    (∃ e, scrape_stock_data jsonResponse okHtmlResponse okHtmlResponse =
      .errorDict (.failedAfterRetries e)) ∧
    scrape_stock_data jsonResponse okHtmlResponse okHtmlResponse ≠
      .errorDict (.invalidResponse "application/json") :=
  C6_non_html_attempt_retried jsonResponse okHtmlResponse okHtmlResponse "application/json"
    (by decide)

/-- Claim C7, counterexample: the grid is found by the primary heuristic,
its direct children contain no `div`, and it does have a descendant `div`
(the looser recursive scan would find one section), yet the function
returns the no-sections error immediately — no secondary recursive fallback
exists in the code (lines 154-161). -/
theorem C7_no_fallback_counterexample :
    find_stock_grid noDirectDivDoc = some noDirectDivGrid ∧
    (find_sections noDirectDivGrid).isEmpty = true ∧
    (find_all noDirectDivGrid "div" anyClass).length = 1 ∧
    process_document noDirectDivDoc "01m 00s" "00h 01m 00s" = .errorDict .noSections :=
  ⟨rfl, rfl, rfl, rfl⟩

/-- Claim C7 as amended: once a grid container is found, if it has no direct
`div` children the pipeline returns the no-sections (StructureError-style)
error dictionary at once; descendant `div`s are never consulted. -/
theorem C7_no_direct_children_immediate_error (soup grid : Node) (gs egg : String)
    (hg : find_stock_grid soup = some grid)
    (hs : (find_sections grid).isEmpty = true) :
    process_document soup gs egg = .errorDict .noSections := by
  rw [process_document, hg]
  simp only [hs, if_true]

/-- Witness for the amended C7 at the concrete no-direct-children grid. -/
theorem C7_no_direct_children_witness :
    process_document noDirectDivDoc "02m 00s" "00h 02m 00s" = .errorDict .noSections :=
  C7_no_direct_children_immediate_error noDirectDivDoc noDirectDivGrid "02m 00s" "00h 02m 00s"
    rfl rfl

/-- Claim C8: with a located grid and a non-empty candidate section list,
the pipeline returns the no-stock-data (EmptyResultError-style) error
dictionary exactly when all three categories end up with empty item lists,
and the built snapshot otherwise — so a success snapshot always has at
least one non-empty category. -/
theorem C8_all_empty_detection (soup : Node) (gs egg : String) (grid : Node) (b : Bool)
    (hg : find_stock_grid soup = some grid)
    (hs : (find_sections grid).isEmpty = false)
    (hb : all_items_empty (build_stock_data (find_sections grid) gs egg) = b) :
    process_document soup gs egg =
      if b then .errorDict .noStockData
      else .success (build_stock_data (find_sections grid) gs egg) := by
  rw [process_document, hg]
  simp only [hs, Bool.false_eq_true, if_false, hb]

/-- Witness for C8: a document with three headed sections and no parseable
entry anywhere yields the no-stock-data error dictionary. -/
theorem C8_all_empty_witness :
    process_document allEmptyDoc "01m 00s" "00h 01m 00s" = .errorDict .noStockData := by
  have h := C8_all_empty_detection allEmptyDoc "01m 00s" "00h 01m 00s"
    (mkGrid [mkSection "GEAR STOCK" [noSpanEntry], mkSection "EGG STOCK" [noSpanEntry],
      mkSection "SEEDS STOCK" [noSpanEntry]]) true rfl rfl (by decide)
  simpa using h

/-- Claim C9: for gear and seeds (indeed for every category — the code uses
one `aggregate` for all), entries sharing a trimmed name are combined into
one StockItem (the output names are exactly the distinct entry names in
order of first occurrence, without duplicates) whose quantity is the sum of
the digit-parsed quantities of those entries; concretely, a gear section
with two `"Widget"` entries of quantities 2 and 3 produces the single
StockItem `{name: "Widget", quantity: 5}`. -/
theorem C9_gear_seeds_aggregation (entries : List (String × Nat)) (n : String) :
    (aggregate entries).map StockItem.name = firstOccurrences (entries.map Prod.fst) ∧
    ((aggregate entries).map StockItem.name).Nodup ∧
    lookupQ (aggregate entries) n = qsum n entries ∧
    build_stock_data [gearDupSection] "01m 00s" "00h 01m 00s" =
      ⟨⟨[⟨"Widget", 5⟩], "01m 00s"⟩, ⟨[], "00h 01m 00s"⟩, ⟨[], "01m 00s"⟩⟩ := by
  have hnames : (aggregate entries).map StockItem.name =
      firstOccurrences (entries.map Prod.fst) := by
    have h0 := aggregateFrom_names entries []
    simpa [aggregate, firstOccurrences] using h0
  refine ⟨hnames, ?_, ?_, by decide⟩
  · rw [hnames]
    exact firstOccAux_nodup (entries.map Prod.fst) []
  · have h2 := lookupQ_aggregateFrom entries [] n
    rw [show lookupQ [] n = 0 from rfl, Nat.zero_add] at h2
    exact h2

/-- Claim C10: an entry with no name span, or no quantity span, or no digit
run in its quantity text parses to nothing; any entry that parses to
nothing is skipped without affecting the extraction of its sibling entries;
and a candidate section with no `h2` heading is skipped by the section loop
without affecting the other sections. -/
theorem C10_malformed_entries_skipped (items_pre items_post : List Node) (bad : Node)
    (hbad : parse_item bad = none)
    (secs_pre secs_post : List Node) (headless : Node)
    (hhl : find_first headless "h2" anyClass = none)
    (gs egg : String) :
    parse_item noSpanEntry = none ∧
    parse_item noQuantityEntry = none ∧
    parse_item noDigitsEntry = none ∧
    (items_pre ++ bad :: items_post).filterMap parse_item =
      (items_pre ++ items_post).filterMap parse_item ∧
    build_stock_data (secs_pre ++ headless :: secs_post) gs egg =
      build_stock_data (secs_pre ++ secs_post) gs egg := by
  refine ⟨by decide, by decide, by decide, ?_, ?_⟩
  · simp [List.filterMap_append, List.filterMap_cons, hbad]
  · rw [build_stock_data, build_stock_data, List.foldl_append, List.foldl_append,
      List.foldl_cons, process_section_no_h2 gs egg _ headless hhl]

/-- Witness for C10 with a concrete digitless entry between two good ones
and a concrete headingless section between two good sections. -/
theorem C10_malformed_witness :
    parse_item noSpanEntry = none ∧
    parse_item noQuantityEntry = none ∧
    parse_item noDigitsEntry = none ∧
    ([mkEntry "Aloe " "x1"] ++ noDigitsEntry :: [mkEntry "Basil " "x3"]).filterMap parse_item =
      ([mkEntry "Aloe " "x1"] ++ [mkEntry "Basil " "x3"]).filterMap parse_item ∧
    build_stock_data ([gearDupSection] ++ headlessSection :: [eggDupSection])
        "01m 00s" "00h 01m 00s" =
      build_stock_data ([gearDupSection] ++ [eggDupSection]) "01m 00s" "00h 01m 00s" :=
  C10_malformed_entries_skipped [mkEntry "Aloe " "x1"] [mkEntry "Basil " "x3"] noDigitsEntry
    (by decide) [gearDupSection] [eggDupSection] headlessSection rfl "01m 00s" "00h 01m 00s"

end Scraper
